import Mathlib

/-!
Verification of the MediaMath mock agent repository core:
the Flow Router (src/agents/crewai-flows/router/flow_router.py),
the MCP JSON-RPC client (src/agents/crewai-flows/shared/mcp_client.py)
and the LangChain tool catalog (src/agents/crewai-flows/shared/mcp_tools.py),
shallowly embedded in Lean.

Python conventions used by the embedding:
* A raised exception is an `Except.error` value; the payload records the
  data the raise site interpolates into the exception message.
* The external LLM call and the external HTTP/json libraries are inputs:
  the outcome of the chat-completion call is a parameter of
  `classify_intent`, the HTTP response is a parameter of `call_tool`,
  and the json module functions (loads and dumps applied inside the
  wrapped tool function) are function parameters.
* Python floats are modelled as rationals; the confidence arithmetic of
  the router (division by 3, min with 1, the constant 0.3) is exact on
  the comparisons the code performs.
* Python str.lower is modelled by ASCII lowercasing (all router keywords
  are ASCII).
-/

namespace MediaMath

/-- Boolean test that the first character list is an initial segment of
the second, written by direct recursion so every definition evaluates. -/
def isPrefixB : List Char → List Char → Bool
  | [], _ => true
  | _ :: _, [] => false
  | a :: as, b :: bs => a == b && isPrefixB as bs

/-- Boolean test that the first character list occurs contiguously inside
the second; this is the Python substring operator on strings. -/
def isInfixB (needle : List Char) : List Char → Bool
  | [] => isPrefixB needle []
  | b :: bs => isPrefixB needle (b :: bs) || isInfixB needle bs

/-- Python `needle in haystack` on strings: contiguous substring test. -/
def pyIn (needle haystack : String) : Bool :=
  isInfixB needle.toList haystack.toList

/-- Python `query.lower()`: lowercase each character (ASCII
approximation by `Char.toLower`; every keyword in the flow table is
ASCII lowercase). Stated over the character list so that it evaluates
inside the kernel. -/
def pyLower (s : String) : String :=
  ⟨s.toList.map Char.toLower⟩

/-- One value of the `FLOW_PATTERNS` class attribute: keywords used by the
fallback classifier, a description and examples used only to build the
LLM prompt. -/
structure FlowInfo where
  keywords : List String
  description : String
  examples : List String
deriving Repr, DecidableEq

/-- The `FlowRouter.FLOW_PATTERNS` table from flow_router.py, in source
declaration order (Python dicts preserve insertion order). -/
def FLOW_PATTERNS : List (String × FlowInfo) := [
  ("campaign_setup_flow",
    { keywords := ["create", "launch", "set up", "new campaigns", "bulk create", "build", "setup", "establish"],
      description := "Creating new campaigns, bulk campaign creation",
      examples := [
        "Create 10 holiday campaigns with $5000 budget each",
        "Set up 5 campaigns for Black Friday",
        "Launch new campaigns for Q4",
        "Build 20 campaigns targeting millennials"] }),
  ("optimization_flow",
    { keywords := ["pause", "optimize", "adjust", "improve", "reduce spend", "underperforming", "increase performance", "scale", "bid adjustment"],
      description := "Optimizing campaign performance, pausing underperformers, adjusting budgets",
      examples := [
        "Pause all underperforming campaigns",
        "Optimize campaigns with high CPA",
        "Adjust bids for better performance",
        "Reduce spend on low-performing strategies"] }),
  ("analytics_flow",
    { keywords := ["report", "analyze", "show", "performance", "budget utilization", "metrics", "dashboard", "statistics", "insights", "data"],
      description := "Analyzing campaign performance, generating reports, showing metrics",
      examples := [
        "Generate performance report for all campaigns",
        "Show budget utilization analysis",
        "Analyze campaign metrics for last 30 days",
        "Create dashboard of key performance indicators"] }),
  ("compliance_flow",
    { keywords := ["audit", "permissions", "access", "security", "compliance", "users", "roles", "governance", "violation"],
      description := "Auditing user access, checking permissions, compliance reviews",
      examples := [
        "Audit all user permissions for security review",
        "Check for users with admin access",
        "Find compliance violations in permissions",
        "Review user access patterns"] }),
  ("creative_flow",
    { keywords := ["creative", "refresh", "fatigue", "assets", "ads", "banner", "image", "video", "copy"],
      description := "Managing creative assets, identifying refresh needs, creative fatigue analysis",
      examples := [
        "Find all creatives that need refresh",
        "Analyze creative fatigue across campaigns",
        "Identify underperforming creatives",
        "Plan creative refresh strategy"] })]

/-- The fixed flow identifier set, in declaration order: the keys of
`FLOW_PATTERNS`. -/
def flowIds : List String :=
  FLOW_PATTERNS.map Prod.fst

/-- Python `sum(1 for keyword in keywords if keyword in query_lower)`:
the number of keywords occurring as substrings of the lowered query. -/
def keywordScore (queryLower : String) (keywords : List String) : Nat :=
  (keywords.filter (fun k => pyIn k queryLower)).length

/-- The per-flow keyword-match counts, in table declaration order: the
`scores` dict built by `_fallback_classification`. -/
def flowScores (query : String) : List (String × Nat) :=
  FLOW_PATTERNS.map (fun p => (p.1, keywordScore (pyLower query) p.2.keywords))

/-- Python `max(scores, key=scores.get)` over an insertion-ordered dict
given as a list: the fold keeps the current best and replaces it only on
a strictly greater score, so the first maximum wins. -/
def pickBest (x : String × Nat) (xs : List (String × Nat)) : String × Nat :=
  xs.foldl (fun best cur => if cur.2 > best.2 then cur else best) x

/-- `FlowRouter._fallback_classification`: keyword scoring, first-max
selection, and the confidence formula min(score/3, 1) with floor 0.3. -/
def fallback_classification (query : String) : String × Rat :=
  let scores := flowScores query
  let best :=
    match scores with
    | [] => ("", 0)
    | x :: xs => pickBest x xs
  let confidence : Rat :=
    if best.2 > 0 then min ((best.2 : Rat) / 3) 1 else 3 / 10
  (best.1, confidence)

/-- Outcome of the external chat-completion call made by
`classify_intent`, as observed by the surrounding Python code.
`exn` is any exception inside the try block (transport failure,
`json.loads` failing on the model output, or formatting a non-numeric
confidence); `parsed` is a successfully decoded JSON object, with
`result.get("flow")` and a numeric `result.get("confidence")` when
present. -/
inductive LLMOutcome where
  | exn
  | parsed (flow : Option String) (confidence : Option Rat)
deriving Repr, DecidableEq

/-- `FlowRouter.classify_intent`: primary LLM path with validation of the
returned flow name against `FLOW_PATTERNS`, falling back to
`_fallback_classification` on exception, missing flow, or an out-of-set
flow name. The confidence defaults to 0.5 when absent and is returned
unmodified. -/
def classify_intent (llm : LLMOutcome) (query : String) : String × Rat :=
  match llm with
  | .exn => fallback_classification query
  | .parsed flow confidence =>
    match flow with
    | none => fallback_classification query
    | some flowName =>
      if flowIds.contains flowName then
        (flowName, confidence.getD (1 / 2))
      else
        fallback_classification query

/-- The dictionary returned by `FlowRouter.route`: the classification
plus the metadata of the selected flow (looked up with a default of an
empty dict, hence the empty-valued defaults). -/
structure RouteResult where
  flow_name : String
  confidence : Rat
  query : String
  flow_info_description : String
  flow_info_keywords : List String
  flow_info_examples : List String
deriving Repr, DecidableEq

/-- `FlowRouter.route`: classify, then attach the flow metadata from
`FLOW_PATTERNS.get(flow_name, \x7b\x7d)`. -/
def route (llm : LLMOutcome) (query : String) : RouteResult :=
  let c := classify_intent llm query
  let info := (FLOW_PATTERNS.lookup c.1).getD
    { keywords := [], description := "", examples := [] }
  { flow_name := c.1
    confidence := c.2
    query := query
    flow_info_description := info.description
    flow_info_keywords := info.keywords
    flow_info_examples := info.examples }

/-- The five flow entry points imported and called by
`FlowRouter.execute_flow`. Each is a black box that either returns a
result of type `α` or raises; a raised Python exception is an
`Except.error` carrying `str(exception)`. -/
structure Executors (α : Type) where
  run_campaign_setup_flow : String → Except String α
  run_optimization_flow : String → Except String α
  run_analytics_flow : String → Except String α
  run_compliance_flow : String → Except String α
  run_creative_flow : String → Except String α

/-- The if/elif dispatch inside the try block of `execute_flow`; the
final else raises `ValueError("Unknown flow: ...")`, which the same
except clause converts to a failure envelope. -/
def runFlow {α : Type} (ex : Executors α) (flowName query : String) :
    Except String α :=
  if flowName = "campaign_setup_flow" then ex.run_campaign_setup_flow query
  else if flowName = "optimization_flow" then ex.run_optimization_flow query
  else if flowName = "analytics_flow" then ex.run_analytics_flow query
  else if flowName = "compliance_flow" then ex.run_compliance_flow query
  else if flowName = "creative_flow" then ex.run_creative_flow query
  else Except.error ("Unknown flow: " ++ flowName)

/-- The dictionary returned by `FlowRouter.execute_flow`: routing info,
a success flag, and either a `result` key or an `error` key. -/
structure Envelope (α : Type) where
  routing : RouteResult
  success : Bool
  result : Option α
  error : Option String

/-- `FlowRouter.execute_flow`: route the query, invoke the selected flow
entry point, and normalize success or any raised exception into an
envelope that always carries the routing result. -/
def execute_flow {α : Type} (ex : Executors α) (llm : LLMOutcome)
    (query : String) : Envelope α :=
  let routing := route llm query
  match runFlow ex routing.flow_name query with
  | .ok r =>
    { routing := routing, success := true, result := some r, error := none }
  | .error e =>
    { routing := routing, success := false, result := none, error := some e }

/-- Python truthiness-based `a or b` on an optional string argument and
an optional environment value: an empty string is falsy. -/
def pyOrStr (a b : Option String) : Option String :=
  match a with
  | some s => if s = "" then b else some s
  | none => b

/-- `FlowRouter.__init__`: resolve the key from the argument or the
OPENAI_API_KEY environment variable; raise ValueError when the result is
missing or empty, so no router object is produced. On success the stored
`api_key` is returned. -/
def FlowRouter_init (openai_api_key envKey : Option String) :
    Except String String :=
  match pyOrStr openai_api_key envKey with
  | none => Except.error "OpenAI API key is required. Set OPENAI_API_KEY environment variable or pass it to the constructor."
  | some k =>
    if k = "" then
      Except.error "OpenAI API key is required. Set OPENAI_API_KEY environment variable or pass it to the constructor."
    else
      Except.ok k

/-- JSON values as decoded by the Python json module (numbers modelled
as rationals; object fields as an ordered association list with distinct
keys, looked up first-match). -/
inductive JSON where
  | null
  | bool (b : Bool)
  | num (n : Rat)
  | str (s : String)
  | arr (elems : List JSON)
  | obj (fields : List (String × JSON))
deriving Repr

/-- First-match association lookup on decoded object fields: Python
`d[k]` / `d.get(k)` on a dict. -/
def findField (fields : List (String × JSON)) (key : String) :
    Option JSON :=
  fields.lookup key

/-- Failure of `MCPClient.call_tool`, i.e. the exception the Python code
raises, carrying the data interpolated into the exception message. -/
inductive ClientError where
  /-- `raise Exception(f"MCP Error (code): msg")` on a JSON-RPC error
  member: `code` is `data["error"].get("code", -1)` and `message` is
  `data["error"].get("message", "Unknown error")`. -/
  | mcpError (code : JSON) (message : JSON)
  /-- `raise Exception(f"HTTP Error calling MCP tool ...")` on a
  requests-level exception (connection error, timeout, bad status). -/
  | httpError (toolName : String) (cause : String)
  /-- `raise Exception(f"Invalid JSON response from MCP server: ...")`
  when the response body fails to decode as JSON. -/
  | invalidJSONResponse (cause : String)
  /-- An exception the except clauses of `call_tool` do not catch and
  which therefore propagates raw: AttributeError when a value assumed to
  be a dict has no `.get`, TypeError when `json.loads` is applied to a
  non-string. -/
  | uncaught (message : String)
deriving Repr

/-- Python `str()` of a scalar decoded-JSON value, as interpolated into
f-strings and returned by the tool wrapper. Integral numbers print as
Python ints; the remaining cases (non-integral numbers, lists, dicts)
do not occur in the error payloads the claims exercise and are rendered
by the Lean `toString`/`reprStr` approximation. -/
def pyStr : JSON → String
  | .null => "None"
  | .bool true => "True"
  | .bool false => "False"
  | .num n => if n.den = 1 then toString n.num else toString n
  | .str s => s
  | .arr es => reprStr (JSON.arr es)
  | .obj fs => reprStr (JSON.obj fs)

/-- `str(exception)` for each raise site of `call_tool`. -/
def strOfClientError : ClientError → String
  | .mcpError code message =>
    "MCP Error (" ++ pyStr code ++ "): " ++ pyStr message
  | .httpError toolName cause =>
    "HTTP Error calling MCP tool \x27" ++ toolName ++ "\x27: " ++ cause
  | .invalidJSONResponse cause =>
    "Invalid JSON response from MCP server: " ++ cause
  | .uncaught message => message

/-- Python `content[0].get("type") == "text"`: equality of an arbitrary
decoded value (None when the key is absent) against the string "text"
holds exactly for the string value "text". -/
def isTextType : Option JSON → Bool
  | some (.str s) => s == "text"
  | _ => false

/-- Outcome of the `requests.post` + `raise_for_status` + `.json()`
sequence, as observed by `call_tool`: a requests-level exception, a body
that is not JSON, or a decoded JSON object body (the JSON-RPC response
model is an object; non-object bodies are outside the modelled protocol). -/
inductive HTTPResponse where
  | transportError (cause : String)
  | invalidBody (cause : String)
  | ok (body : List (String × JSON))
deriving Repr

/-- `MCPClient.call_tool`, parameterized over the Python `json.loads`
function restricted to its success/failure outcome (`none` when it
raises json.JSONDecodeError) and over the observed HTTP outcome.
Mirrors the source branch for branch: JSON-RPC error member first, then
the content-envelope unwrapping, then the result verbatim, then None. -/
def call_tool (jsonLoads : String → Option JSON) (tool_name : String)
    (resp : HTTPResponse) : Except ClientError JSON :=
  match resp with
  | .transportError cause => .error (.httpError tool_name cause)
  | .invalidBody cause => .error (.invalidJSONResponse cause)
  | .ok data =>
    match findField data "error" with
    | some (.obj errFields) =>
      let message := (findField errFields "message").getD (.str "Unknown error")
      let code := (findField errFields "code").getD (.num (-1))
      .error (.mcpError code message)
    | some _ =>
      .error (.uncaught "AttributeError: object has no attribute get")
    | none =>
      match findField data "result" with
      | some result =>
        match result with
        | .obj resFields =>
          match findField resFields "content" with
          | some (.arr (first :: _)) =>
            match first with
            | .obj firstFields =>
              if isTextType (findField firstFields "type") then
                match (findField firstFields "text").getD (.str "") with
                | .str text =>
                  match jsonLoads text with
                  | some v => .ok v
                  | none => .ok (.str text)
                | _ =>
                  .error (.uncaught "TypeError: the JSON object must be str, bytes or bytearray")
              else
                .ok result
            | _ =>
              .error (.uncaught "AttributeError: object has no attribute get")
          | _ => .ok result
        | _ => .ok result
      | none => .ok .null

/-- The inner function returned by `MCPToolWrapper.create_tool_func`:
invoke `call_tool`, stringify dict/list results via `json.dumps`
(passed in as the external `dumps` parameter) and other results via
`str`; catch every exception and return the error as a plain string.
The codomain is `String`: this function never raises. -/
def tool_func (jsonLoads : String → Option JSON) (dumps : JSON → String)
    (tool_name : String) (resp : HTTPResponse) : String :=
  match call_tool jsonLoads tool_name resp with
  | .ok result =>
    match result with
    | .obj fs => dumps (.obj fs)
    | .arr es => dumps (.arr es)
    | r => pyStr r
  | .error e => "Error executing " ++ tool_name ++ ": " ++ strOfClientError e

/-- A LangChain `Tool` as built by `MCPToolWrapper.create_tool`: a name,
a description for the LLM, and a function that is exactly
`create_tool_func(tool_name)` for the same name (captured by
`tool_func` above applied to the `name` field). -/
structure LCTool where
  name : String
  description : String
deriving Repr, DecidableEq

/-- The catalog built by `wrap_mcp_tools`: the 28 tools in source order,
as (dictionary key = tool name, description) records. Invocation
semantics of each entry are given by `invokeCatalogTool`. -/
def wrap_mcp_tools : List LCTool := [
  { name := "find_campaigns",
    description := "Find campaigns by organization ID. Args: organization_id (int). Returns: List of campaigns with IDs, names, statuses, and budgets." },
  { name := "get_campaign_info",
    description := "Get detailed campaign information including metrics. Args: campaign_id (int). Returns: Campaign details with spend, impressions, clicks, CTR, etc." },
  { name := "create_campaign",
    description := "Create a new campaign. Args: name (str), organization_id (int), budget (float). Returns: Created campaign ID and details." },
  { name := "update_campaign",
    description := "Update campaign properties. Args: campaign_id (int), updates (dict with fields like name, status, budget). Returns: Updated campaign details." },
  { name := "delete_campaign",
    description := "Delete a campaign. Args: campaign_id (int). Returns: Deletion confirmation." },
  { name := "update_campaign_budget",
    description := "Update campaign budget. Args: campaign_id (int), budget (float). Returns: Updated budget confirmation." },
  { name := "find_strategies",
    description := "Find strategies by campaign ID. Args: campaign_id (int). Returns: List of strategies with IDs, names, and statuses." },
  { name := "get_strategy_info",
    description := "Get detailed strategy information. Args: strategy_id (int). Returns: Strategy details with performance metrics." },
  { name := "create_strategy",
    description := "Create a new strategy. Args: campaign_id (int), name (str), budget (float, optional). Returns: Created strategy ID and details." },
  { name := "update_strategy",
    description := "Update strategy properties. Args: strategy_id (int), updates (dict with fields like name, status, bid). Returns: Updated strategy details." },
  { name := "delete_strategy",
    description := "Delete a strategy. Args: strategy_id (int). Returns: Deletion confirmation." },
  { name := "find_audience_segments",
    description := "Find audience segments by organization. Args: organization_id (int). Returns: List of audience segments." },
  { name := "get_audience_segment_info",
    description := "Get audience segment details. Args: segment_id (int). Returns: Segment details with targeting criteria." },
  { name := "create_audience_segment",
    description := "Create a new audience segment. Args: name (str), organization_id (int), criteria (dict, optional). Returns: Created segment ID and details." },
  { name := "update_audience_segment",
    description := "Update audience segment. Args: segment_id (int), updates (dict). Returns: Updated segment details." },
  { name := "delete_audience_segment",
    description := "Delete an audience segment. Args: segment_id (int). Returns: Deletion confirmation." },
  { name := "find_creatives",
    description := "Find creatives by organization. Args: organization_id (int). Returns: List of creatives with IDs, names, types, and statuses." },
  { name := "get_creative_info",
    description := "Get creative details and performance. Args: creative_id (int). Returns: Creative details with CTR and engagement metrics." },
  { name := "create_creative",
    description := "Create a new creative. Args: name (str), organization_id (int), creative_type (str), content (dict). Returns: Created creative ID and details." },
  { name := "update_creative",
    description := "Update creative properties. Args: creative_id (int), updates (dict). Returns: Updated creative details." },
  { name := "delete_creative",
    description := "Delete a creative. Args: creative_id (int). Returns: Deletion confirmation." },
  { name := "find_organizations",
    description := "Find all organizations accessible to the user. Args: None. Returns: List of organizations with IDs and names." },
  { name := "get_organization_info",
    description := "Get organization details. Args: organization_id (int). Returns: Organization details including settings and limits." },
  { name := "find_users",
    description := "Find users by organization. Args: organization_id (int). Returns: List of users with IDs, names, and roles." },
  { name := "get_user_info",
    description := "Get user details. Args: user_id (int). Returns: User details including email and role." },
  { name := "get_user_permissions",
    description := "Get user permissions and access rights. Args: user_id (int). Returns: List of permissions and access levels." },
  { name := "find_supply_sources",
    description := "Find supply sources (ad exchanges). Args: organization_id (int, optional). Returns: List of supply sources with IDs and names." },
  { name := "get_supply_source_info",
    description := "Get supply source details and performance. Args: supply_source_id (int). Returns: Supply source performance metrics." }]

/-- Invoking a catalog entry: `create_tool` stores
`func = create_tool_func(tool_name)`, so calling the tool runs
`tool_func` for the entry name on the observed remote outcome. -/
def invokeCatalogTool (jsonLoads : String → Option JSON)
    (dumps : JSON → String) (t : LCTool) (resp : HTTPResponse) : String :=
  tool_func jsonLoads dumps t.name resp

/-- Modelled from the spec: the success-unwrapping rule of section 4.1
exactly as the spec states it — when the result payload has the content
envelope shape (an object whose content field is a nonempty array whose
first element is an object with type "text" and a string text field),
parse the text as JSON, falling back to the raw text; for any other
result shape, return the result field verbatim. Used to compare the
spec sentence of C7 against `call_tool`. -/
def unwrapResultSpec (jsonLoads : String → Option JSON) (result : JSON) :
    JSON :=
  match result with
  | .obj rf =>
    match findField rf "content" with
    | some (.arr (.obj ff :: _)) =>
      if isTextType (findField ff "type") then
        match findField ff "text" with
        | some (.str text) => (jsonLoads text).getD (.str text)
        | _ => result
      else result
    | _ => result
  | _ => result

/-- The success-unwrapping rule amended to what the code does on the
benign shapes: identical to `unwrapResultSpec` except that an absent
text field defaults to the empty string before the parse attempt. -/
def unwrapResultAmended (jsonLoads : String → Option JSON)
    (result : JSON) : JSON :=
  match result with
  | .obj rf =>
    match findField rf "content" with
    | some (.arr (.obj ff :: _)) =>
      if isTextType (findField ff "type") then
        match (findField ff "text").getD (.str "") with
        | .str text => (jsonLoads text).getD (.str text)
        | _ => result
      else result
    | _ => result
  | _ => result

/-- Decides whether a success result value avoids the uncaught-exception
paths of `call_tool`: false exactly when the content prelude is entered
with a non-object first element (AttributeError) or with a text value
that is present but not a string (TypeError inside json.loads). -/
def resultShapeOK : JSON → Bool
  | .obj rf =>
    match findField rf "content" with
    | some (.arr (first :: _)) =>
      match first with
      | .obj ff =>
        if isTextType (findField ff "type") then
          match (findField ff "text").getD (.str "") with
          | .str _ => true
          | _ => false
        else true
      | _ => false
    | _ => true
  | _ => true

/-- A stub flow-executor table whose every entry raises an exception with
message "boom"; used to exercise the failure path of `execute_flow`. -/
def failingExecutors : Executors Unit :=
  { run_campaign_setup_flow := fun _ => .error "boom"
    run_optimization_flow := fun _ => .error "boom"
    run_analytics_flow := fun _ => .error "boom"
    run_compliance_flow := fun _ => .error "boom"
    run_creative_flow := fun _ => .error "boom" }

lemma pickBest_cons (x y : String × Nat) (ys : List (String × Nat)) :
    pickBest x (y :: ys) = pickBest (if y.2 > x.2 then y else x) ys := rfl

lemma pickBest_mem (x : String × Nat) (xs : List (String × Nat)) :
    pickBest x xs ∈ x :: xs := by
  induction xs generalizing x with
  | nil => simp [pickBest]
  | cons y ys ih =>
    rw [pickBest_cons]
    rcases List.mem_cons.mp (ih (if y.2 > x.2 then y else x)) with h1 | h2
    · rw [h1]
      by_cases hc : y.2 > x.2 <;> simp [hc]
    · exact List.mem_cons_of_mem _ (List.mem_cons_of_mem _ h2)

lemma pickBest_split (x : String × Nat) (xs : List (String × Nat)) :
    ∃ pre suf, x :: xs = pre ++ pickBest x xs :: suf ∧
      (∀ p ∈ pre, p.2 < (pickBest x xs).2) ∧
      (∀ s ∈ suf, s.2 ≤ (pickBest x xs).2) := by
  induction xs generalizing x with
  | nil => exact ⟨[], [], rfl, by simp, by simp⟩
  | cons y ys ih =>
    rw [pickBest_cons]
    by_cases h : y.2 > x.2
    · rw [if_pos h]
      obtain ⟨pre, suf, heq, hpre, hsuf⟩ := ih y
      have hx : x.2 < (pickBest y ys).2 := by
        cases pre with
        | nil =>
          simp only [List.nil_append] at heq
          injection heq with h1 _
          rw [← h1]
          exact h
        | cons p ps =>
          simp only [List.cons_append] at heq
          injection heq with h1 _
          have hp := hpre p (List.mem_cons_self p ps)
          rw [h1] at h
          exact lt_trans h hp
      refine ⟨x :: pre, suf, ?_, ?_, hsuf⟩
      · rw [List.cons_append, ← heq]
      · intro p hp
        rcases List.mem_cons.mp hp with h1 | h2
        · rw [h1]; exact hx
        · exact hpre p h2
    · rw [if_neg h]
      have hyx : y.2 ≤ x.2 := Nat.le_of_not_lt h
      obtain ⟨pre, suf, heq, hpre, hsuf⟩ := ih x
      cases pre with
      | nil =>
        simp only [List.nil_append] at heq
        injection heq with h1 h2
        refine ⟨[], y :: suf, ?_, by simp, ?_⟩
        · simp only [List.nil_append]
          rw [← h1, ← h2]
        · intro s hs
          rcases List.mem_cons.mp hs with hs1 | hs2
          · rw [hs1, ← h1]
            exact hyx
          · exact hsuf s hs2
      | cons p ps =>
        simp only [List.cons_append] at heq
        injection heq with h1 h2
        have hpb := hpre p (List.mem_cons_self p ps)
        refine ⟨x :: y :: ps, suf, ?_, ?_, hsuf⟩
        · simp only [List.cons_append]
          rw [← h2]
        · intro s hs
          rcases List.mem_cons.mp hs with hs1 | hs2
          · have hx2 : x.2 = p.2 := by rw [h1]
            rw [hs1, hx2]
            exact hpb
          · rcases List.mem_cons.mp hs2 with hs3 | hs4
            · rw [hs3]
              rw [h1] at hyx
              exact lt_of_le_of_lt hyx hpb
            · exact hpre s (List.mem_cons_of_mem p hs4)

lemma conf_formula_bounds (n : Nat) :
    0 ≤ (if n > 0 then min ((n : Rat) / 3) 1 else 3 / 10) ∧
      (if n > 0 then min ((n : Rat) / 3) 1 else 3 / 10) ≤ 1 := by
  split
  · exact ⟨le_min (by positivity) (by norm_num), min_le_right _ _⟩
  · norm_num

lemma fallback_decomp (query : String) :
    ∃ pre best suf,
      flowScores query = pre ++ best :: suf ∧
      (∀ p ∈ pre, p.2 < best.2) ∧
      (∀ s ∈ suf, s.2 ≤ best.2) ∧
      fallback_classification query =
        (best.1, if best.2 > 0 then min ((best.2 : Rat) / 3) 1 else 3 / 10) := by
  obtain ⟨x, xs, hxx⟩ : ∃ x xs, flowScores query = x :: xs := ⟨_, _, rfl⟩
  obtain ⟨pre, suf, heq, hpre, hsuf⟩ := pickBest_split x xs
  refine ⟨pre, pickBest x xs, suf, ?_, hpre, hsuf, ?_⟩
  · rw [hxx]; exact heq
  · simp only [fallback_classification, hxx]

/-- C1: for every query and every observed LLM outcome, the flow
identifier returned by `classify_intent` is one of the five fixed flow
identifiers, and the same holds for the keyword-fallback path taken on
its own. -/
theorem classify_intent_flow_valid :
    flowIds = ["campaign_setup_flow", "optimization_flow", "analytics_flow",
      "compliance_flow", "creative_flow"] ∧
    (∀ llm query, (classify_intent llm query).1 ∈ flowIds) ∧
    (∀ query, (fallback_classification query).1 ∈ flowIds) := by
  have hfb : ∀ query, (fallback_classification query).1 ∈ flowIds := by
    intro query
    obtain ⟨x, xs, hxx⟩ : ∃ x xs, flowScores query = x :: xs := ⟨_, _, rfl⟩
    have h1 : (fallback_classification query).1 = (pickBest x xs).1 := by
      simp only [fallback_classification, hxx]
    have hmem : pickBest x xs ∈ flowScores query := by
      rw [hxx]; exact pickBest_mem x xs
    have hfst : (flowScores query).map Prod.fst = flowIds := rfl
    rw [h1, ← hfst]
    exact List.mem_map_of_mem Prod.fst hmem
  refine ⟨rfl, ?_, hfb⟩
  intro llm query
  cases llm with
  | exn => simpa [classify_intent] using hfb query
  | parsed flow confidence =>
    cases flow with
    | none => simpa [classify_intent] using hfb query
    | some f =>
      by_cases hf : f ∈ flowIds
      · simp [classify_intent, hf]
      · simpa [classify_intent, hf] using hfb query

/-- C3: the fallback classifier scores each flow, in table declaration
order, by the number of its keywords occurring as substrings of the
lowered query; the returned flow is a first maximum of that score list
(every earlier flow scores strictly less, every later flow scores at
most as much), and the confidence is min(score/3, 1) for a positive
winning score and exactly 0.3 otherwise. -/
theorem fallback_keyword_first_max (query : String) :
    ∃ pre best suf,
      flowScores query = pre ++ best :: suf ∧
      (∀ p ∈ pre, p.2 < best.2) ∧
      (∀ s ∈ suf, s.2 ≤ best.2) ∧
      fallback_classification query =
        (best.1, if best.2 > 0 then min ((best.2 : Rat) / 3) 1 else 3 / 10) :=
  fallback_decomp query

/-- C4: whenever the primary LLM classification is unusable — the call
raised or its output was unparseable (`LLMOutcome.exn`), the parsed
object has no flow member, or the flow member is outside the fixed flow
set — `classify_intent` returns exactly the fallback classification of
the same query. -/
theorem classify_llm_failure_equals_fallback (query : String) :
    classify_intent LLMOutcome.exn query = fallback_classification query ∧
    (∀ confidence, classify_intent (LLMOutcome.parsed none confidence) query =
      fallback_classification query) ∧
    (∀ flowName confidence, flowName ∉ flowIds →
      classify_intent (LLMOutcome.parsed (some flowName) confidence) query =
        fallback_classification query) := by
  refine ⟨rfl, fun _ => rfl, fun flowName confidence h => ?_⟩
  simp [classify_intent, h]

/-- Witness for C4 at a concrete out-of-set flow name. -/
theorem classify_llm_failure_equals_fallback_witness :
    classify_intent (LLMOutcome.parsed (some "bogus_flow") (some 1)) "pause it" =
      fallback_classification "pause it" :=
  (classify_llm_failure_equals_fallback "pause it").2.2 "bogus_flow" (some 1)
    (by decide)

/-- Counterexample to C5 as stated: a parsed LLM response carrying a
valid flow name and confidence 2 makes `classify_intent` return
confidence 2, which is outside the closed interval from 0 to 1 — the
primary path does not clamp the LLM-supplied confidence. -/
theorem classify_intent_confidence_unclamped :
    classify_intent (LLMOutcome.parsed (some "analytics_flow") (some 2)) "" =
      ("analytics_flow", 2) ∧ ¬ ((2 : Rat) ≤ 1) := by
  exact ⟨rfl, by norm_num⟩

/-- C5 amended: the confidence returned by `classify_intent` lies in
the closed interval from 0 to 1 whenever the classification comes from
the fallback path, and on the primary path exactly when the
LLM-supplied confidence value (0.5 when absent) itself lies in that
interval — the code returns the parsed value unclamped. -/
theorem classify_intent_confidence_bounds (llm : LLMOutcome) (query : String)
    (h : ∀ flow c, llm = LLMOutcome.parsed flow c →
      0 ≤ c.getD (1 / 2) ∧ c.getD (1 / 2) ≤ 1) :
    0 ≤ (classify_intent llm query).2 ∧ (classify_intent llm query).2 ≤ 1 := by
  have hfb : 0 ≤ (fallback_classification query).2 ∧
      (fallback_classification query).2 ≤ 1 := by
    obtain ⟨pre, best, suf, _, _, _, heq⟩ := fallback_decomp query
    rw [heq]
    exact conf_formula_bounds best.2
  cases llm with
  | exn => simpa [classify_intent] using hfb
  | parsed flow confidence =>
    cases flow with
    | none => simpa [classify_intent] using hfb
    | some f =>
      by_cases hf : f ∈ flowIds
      · have hcc := h (some f) confidence rfl
        simpa [classify_intent, hf] using hcc
      · simpa [classify_intent, hf] using hfb

/-- Witness for C5 (amended) on a primary-path classification whose
LLM-supplied confidence 0.9 is in range. -/
theorem classify_intent_confidence_bounds_witness :
    0 ≤ (classify_intent (LLMOutcome.parsed (some "analytics_flow")
        (some (9 / 10))) "x").2 ∧
      (classify_intent (LLMOutcome.parsed (some "analytics_flow")
        (some (9 / 10))) "x").2 ≤ 1 :=
  classify_intent_confidence_bounds _ _ (by
    intro flow c heq
    cases heq
    constructor <;> norm_num)

/-- C9: constructing a FlowRouter with no key argument and no
OPENAI_API_KEY in the environment raises ValueError at construction
time, so no router value is produced. -/
theorem router_init_requires_key :
    FlowRouter_init none none =
      Except.error "OpenAI API key is required. Set OPENAI_API_KEY environment variable or pass it to the constructor." :=
  rfl

/-- C2: `execute_flow` always returns an envelope carrying the routing
classification that was made; when the selected flow entry point raises
(an `Except.error` whose payload is the Python `str(exception)`), the
envelope has success false and that string as its error, and when it
returns normally the envelope has success true and the result. No
exception escapes: the function is total into `Envelope`. -/
theorem execute_flow_envelope {α : Type} (ex : Executors α)
    (llm : LLMOutcome) (query : String) :
    (execute_flow ex llm query).routing = route llm query ∧
    (∀ e, runFlow ex (route llm query).flow_name query = .error e →
      (execute_flow ex llm query).success = false ∧
      (execute_flow ex llm query).error = some e ∧
      (execute_flow ex llm query).result = none) ∧
    (∀ r, runFlow ex (route llm query).flow_name query = .ok r →
      (execute_flow ex llm query).success = true ∧
      (execute_flow ex llm query).result = some r ∧
      (execute_flow ex llm query).error = none) := by
  refine ⟨?_, ?_, ?_⟩
  · cases h : runFlow ex (route llm query).flow_name query with
    | ok r => simp [execute_flow, h]
    | error e => simp [execute_flow, h]
  · intro e he
    simp [execute_flow, he]
  · intro r hr
    simp [execute_flow, hr]

/-- Witness for C2: the all-raising executor stub on the empty query
yields a failure envelope carrying the exception text. -/
theorem execute_flow_envelope_witness :
    (execute_flow failingExecutors LLMOutcome.exn "").success = false ∧
    (execute_flow failingExecutors LLMOutcome.exn "").error = some "boom" ∧
    (execute_flow failingExecutors LLMOutcome.exn "").result = none :=
  (execute_flow_envelope failingExecutors LLMOutcome.exn "").2.1 "boom" rfl

/-- C6: a well-formed JSON-RPC error response makes `call_tool` raise
the error carrying the response code and message members: no default
value is substituted for the failure. -/
theorem call_tool_rpc_error (jsonLoads : String → Option JSON)
    (tool_name : String) (fields errFields : List (String × JSON))
    (code msg : JSON)
    (he : findField fields "error" = some (.obj errFields))
    (hc : findField errFields "code" = some code)
    (hm : findField errFields "message" = some msg) :
    call_tool jsonLoads tool_name (.ok fields) =
      .error (.mcpError code msg) := by
  simp [call_tool, he, hc, hm]

/-- Witness for C6: the response body with error code -32000 and message
"not found" raises exactly that code and message. -/
theorem call_tool_rpc_error_witness :
    call_tool (fun _ => none) "find_campaigns"
      (.ok [("jsonrpc", .str "2.0"),
            ("error", .obj [("code", .num (-32000)),
                            ("message", .str "not found")])]) =
      .error (.mcpError (.num (-32000)) (.str "not found")) :=
  call_tool_rpc_error (fun _ => none) "find_campaigns" _ _ _ _ rfl rfl rfl

/-- C10: an HTTP-success response whose JSON object body has neither a
result member nor an error member makes `call_tool` return None (and
raise nothing) — a silent default for a response outside the
result-or-error model. -/
theorem call_tool_no_result_no_error (jsonLoads : String → Option JSON)
    (tool_name : String) (fields : List (String × JSON))
    (he : findField fields "error" = none)
    (hr : findField fields "result" = none) :
    call_tool jsonLoads tool_name (.ok fields) = .ok JSON.null := by
  simp [call_tool, he, hr]

/-- Witness for C10 on a concrete body carrying only protocol fields. -/
theorem call_tool_no_result_no_error_witness :
    call_tool (fun _ => none) "find_campaigns"
      (.ok [("jsonrpc", .str "2.0"), ("id", .num 1)]) = .ok JSON.null :=
  call_tool_no_result_no_error (fun _ => none) "find_campaigns" _ rfl rfl

/-- Counterexample to C7 as stated: for the success result
(an object whose content is a one-element array holding the plain
string "x" — not the text envelope, so per the claim the result should
come back verbatim) `call_tool` instead raises an uncaught
AttributeError, because the code calls `.get` on the non-dict first
content element. -/
theorem call_tool_other_shape_raises :
    call_tool (fun _ => none) "find_campaigns"
      (.ok [("result", .obj [("content", .arr [.str "x"])])]) =
      .error (.uncaught "AttributeError: object has no attribute get") ∧
    unwrapResultSpec (fun _ => none) (.obj [("content", .arr [.str "x"])]) =
      .obj [("content", .arr [.str "x"])] ∧
    call_tool (fun _ => none) "find_campaigns"
      (.ok [("result", .obj [("content", .arr [.str "x"])])]) ≠
      .ok (unwrapResultSpec (fun _ => none)
        (.obj [("content", .arr [.str "x"])])) := by
  refine ⟨rfl, rfl, fun h => ?_⟩
  exact Except.noConfusion h

/-- C7 amended: on a success response, when the result value stays on
the caught paths (`resultShapeOK`), `call_tool` returns the spec
unwrapping with the single amendment that an absent text field defaults
to the empty string; when the result value enters the content prelude
with a non-object first element or a non-string text value,
`call_tool` raises an uncaught exception instead of returning the
result verbatim. -/
theorem call_tool_success_unwrapping (jsonLoads : String → Option JSON)
    (tool_name : String) (fields : List (String × JSON)) (result : JSON)
    (hne : findField fields "error" = none)
    (hr : findField fields "result" = some result) :
    (resultShapeOK result = true →
      call_tool jsonLoads tool_name (.ok fields) =
        .ok (unwrapResultAmended jsonLoads result)) ∧
    (resultShapeOK result = false →
      ∃ msg, call_tool jsonLoads tool_name (.ok fields) =
        .error (.uncaught msg)) := by
  have key : (resultShapeOK result = true ∧
      call_tool jsonLoads tool_name (.ok fields) =
        .ok (unwrapResultAmended jsonLoads result)) ∨
      (resultShapeOK result = false ∧
        ∃ msg, call_tool jsonLoads tool_name (.ok fields) =
          .error (.uncaught msg)) := by
    cases result with
    | null =>
      exact Or.inl ⟨rfl, by simp [call_tool, hne, hr, unwrapResultAmended]⟩
    | bool b =>
      exact Or.inl ⟨rfl, by simp [call_tool, hne, hr, unwrapResultAmended]⟩
    | num q =>
      exact Or.inl ⟨rfl, by simp [call_tool, hne, hr, unwrapResultAmended]⟩
    | str s =>
      exact Or.inl ⟨rfl, by simp [call_tool, hne, hr, unwrapResultAmended]⟩
    | arr es =>
      exact Or.inl ⟨rfl, by simp [call_tool, hne, hr, unwrapResultAmended]⟩
    | obj rf =>
      cases hc : findField rf "content" with
      | none =>
        exact Or.inl ⟨by simp [resultShapeOK, hc],
          by simp [call_tool, hne, hr, hc, unwrapResultAmended]⟩
      | some c =>
        cases c with
        | null =>
          exact Or.inl ⟨by simp [resultShapeOK, hc],
            by simp [call_tool, hne, hr, hc, unwrapResultAmended]⟩
        | bool b =>
          exact Or.inl ⟨by simp [resultShapeOK, hc],
            by simp [call_tool, hne, hr, hc, unwrapResultAmended]⟩
        | num q =>
          exact Or.inl ⟨by simp [resultShapeOK, hc],
            by simp [call_tool, hne, hr, hc, unwrapResultAmended]⟩
        | str s =>
          exact Or.inl ⟨by simp [resultShapeOK, hc],
            by simp [call_tool, hne, hr, hc, unwrapResultAmended]⟩
        | obj o =>
          exact Or.inl ⟨by simp [resultShapeOK, hc],
            by simp [call_tool, hne, hr, hc, unwrapResultAmended]⟩
        | arr elems =>
          cases elems with
          | nil =>
            exact Or.inl ⟨by simp [resultShapeOK, hc],
              by simp [call_tool, hne, hr, hc, unwrapResultAmended]⟩
          | cons first rest =>
            cases first with
            | obj ff =>
              by_cases ht : isTextType (findField ff "type") = true
              · cases htx : (findField ff "text").getD (.str "") with
                | str text =>
                  refine Or.inl ⟨by simp [resultShapeOK, hc, ht, htx], ?_⟩
                  cases hL : jsonLoads text with
                  | some v =>
                    simp [call_tool, hne, hr, hc, ht, htx, hL,
                      unwrapResultAmended]
                  | none =>
                    simp [call_tool, hne, hr, hc, ht, htx, hL,
                      unwrapResultAmended]
                | null =>
                  exact Or.inr ⟨by simp [resultShapeOK, hc, ht, htx],
                    "TypeError: the JSON object must be str, bytes or bytearray",
                    by simp [call_tool, hne, hr, hc, ht, htx]⟩
                | bool b =>
                  exact Or.inr ⟨by simp [resultShapeOK, hc, ht, htx],
                    "TypeError: the JSON object must be str, bytes or bytearray",
                    by simp [call_tool, hne, hr, hc, ht, htx]⟩
                | num q =>
                  exact Or.inr ⟨by simp [resultShapeOK, hc, ht, htx],
                    "TypeError: the JSON object must be str, bytes or bytearray",
                    by simp [call_tool, hne, hr, hc, ht, htx]⟩
                | arr es =>
                  exact Or.inr ⟨by simp [resultShapeOK, hc, ht, htx],
                    "TypeError: the JSON object must be str, bytes or bytearray",
                    by simp [call_tool, hne, hr, hc, ht, htx]⟩
                | obj o =>
                  exact Or.inr ⟨by simp [resultShapeOK, hc, ht, htx],
                    "TypeError: the JSON object must be str, bytes or bytearray",
                    by simp [call_tool, hne, hr, hc, ht, htx]⟩
              · exact Or.inl ⟨by simp [resultShapeOK, hc, ht],
                  by simp [call_tool, hne, hr, hc, ht, unwrapResultAmended]⟩
            | null =>
              exact Or.inr ⟨by simp [resultShapeOK, hc],
                "AttributeError: object has no attribute get",
                by simp [call_tool, hne, hr, hc]⟩
            | bool b =>
              exact Or.inr ⟨by simp [resultShapeOK, hc],
                "AttributeError: object has no attribute get",
                by simp [call_tool, hne, hr, hc]⟩
            | num q =>
              exact Or.inr ⟨by simp [resultShapeOK, hc],
                "AttributeError: object has no attribute get",
                by simp [call_tool, hne, hr, hc]⟩
            | str s =>
              exact Or.inr ⟨by simp [resultShapeOK, hc],
                "AttributeError: object has no attribute get",
                by simp [call_tool, hne, hr, hc]⟩
            | arr es =>
              exact Or.inr ⟨by simp [resultShapeOK, hc],
                "AttributeError: object has no attribute get",
                by simp [call_tool, hne, hr, hc]⟩
  constructor
  · intro hshape
    rcases key with ⟨_, h⟩ | ⟨hf, _⟩
    · exact h
    · rw [hshape] at hf
      cases hf
  · intro hshape
    rcases key with ⟨ht, _⟩ | ⟨_, h⟩
    · rw [hshape] at ht
      cases ht
    · exact h

/-- Witness for C7 (amended): a text envelope whose text does not parse
as JSON comes back as the raw text string. -/
theorem call_tool_success_unwrapping_witness :
    call_tool (fun _ => none) "get_campaign_info"
      (.ok [("result", .obj [("content",
        .arr [.obj [("type", .str "text"), ("text", .str "plain result")]])])]) =
      .ok (unwrapResultAmended (fun _ => none)
        (.obj [("content",
          .arr [.obj [("type", .str "text"), ("text", .str "plain result")]])])) :=
  (call_tool_success_unwrapping (fun _ => none) "get_campaign_info"
    [("result", .obj [("content",
      .arr [.obj [("type", .str "text"), ("text", .str "plain result")]])])]
    (.obj [("content",
      .arr [.obj [("type", .str "text"), ("text", .str "plain result")]])])
    rfl rfl).1 rfl

/-- Counterexample to C8 as stated: the catalog tool find_campaigns,
invoked while the remote call fails with the JSON-RPC error -32000,
returns the ordinary string "Error executing find_campaigns: MCP Error
(-32000): not found" — no typed failure is raised or returned (the
wrapped function is total into String) — and a perfectly successful
remote call whose text payload happens to be that same sentence returns
the identical string, so the caller cannot distinguish the two. -/
theorem tool_invocation_failure_is_plain_string :
    ({ name := "find_campaigns",
       description := "Find campaigns by organization ID. Args: organization_id (int). Returns: List of campaigns with IDs, names, statuses, and budgets." } : LCTool)
      ∈ wrap_mcp_tools ∧
    invokeCatalogTool (fun _ => none) (fun _ => "")
      { name := "find_campaigns",
        description := "Find campaigns by organization ID. Args: organization_id (int). Returns: List of campaigns with IDs, names, statuses, and budgets." }
      (.ok [("error", .obj [("code", .num (-32000)),
                            ("message", .str "not found")])]) =
      "Error executing find_campaigns: MCP Error (-32000): not found" ∧
    invokeCatalogTool (fun _ => none) (fun _ => "")
      { name := "find_campaigns",
        description := "Find campaigns by organization ID. Args: organization_id (int). Returns: List of campaigns with IDs, names, statuses, and budgets." }
      (.ok [("result", .obj [("content", .arr [.obj [("type", .str "text"),
        ("text", .str "Error executing find_campaigns: MCP Error (-32000): not found")]])])]) =
      "Error executing find_campaigns: MCP Error (-32000): not found" := by
  refine ⟨?_, rfl, rfl⟩
  simp [wrap_mcp_tools]

/-- C8 amended: invocation-time failures of a catalog tool are caught
inside the wrapped function and surfaced only as the returned string
"Error executing name: message" built from the Remote Tool Client
exception text; the failure information is carried in an ordinary
string value, not in a raised or typed failure. -/
theorem invokeCatalogTool_error_string (jsonLoads : String → Option JSON)
    (dumps : JSON → String) (t : LCTool) (resp : HTTPResponse)
    (e : ClientError)
    (_ht : t ∈ wrap_mcp_tools)
    (he : call_tool jsonLoads t.name resp = .error e) :
    invokeCatalogTool jsonLoads dumps t resp =
      "Error executing " ++ t.name ++ ": " ++ strOfClientError e := by
  simp [invokeCatalogTool, tool_func, he]

/-- Witness for C8 (amended) at the first catalog entry and the
concrete -32000 error response. -/
theorem invokeCatalogTool_error_string_witness :
    invokeCatalogTool (fun _ => none) (fun _ => "")
      { name := "find_campaigns",
        description := "Find campaigns by organization ID. Args: organization_id (int). Returns: List of campaigns with IDs, names, statuses, and budgets." }
      (.ok [("error", .obj [("code", .num (-32000)),
                            ("message", .str "not found")])]) =
      "Error executing " ++ "find_campaigns" ++ ": " ++
        strOfClientError (.mcpError (.num (-32000)) (.str "not found")) :=
  invokeCatalogTool_error_string (fun _ => none) (fun _ => "") _ _ _
    (by simp [wrap_mcp_tools]) rfl

end MediaMath
